import Mathlib

/-!
Verification of the AI content generator backend's content pipeline.

The definitions below are a shallow embedding of the TypeScript source:
the Mongo-backed content store becomes a list of records, each service
function (`src/services/contentService.ts`, here `src/unnamed/part_001`)
becomes a pure function on that list, the BullMQ worker processor
(`src/worker.ts`) becomes a function producing an ordered effect trace,
and the HTTP handlers (`src/controllers/contentController.ts`) become
functions returning an outcome value.  JavaScript falsiness on nullable
strings (`!x`) is modelled explicitly by `strFalsy`.
-/

namespace AICG

/-- The `ContentType` enum from `src/models/Content.ts`. -/
inductive ContentType
  | blog_post_outline
  | product_description
  | social_media_caption
  | article
  | email
deriving DecidableEq, Repr

/-- The `JobStatus` enum from `src/models/Content.ts`. -/
inductive JobStatus
  | queued
  | pending
  | processing
  | completed
  | failed
deriving DecidableEq, Repr

/-- A Content document (`IContent` in `src/models/Content.ts`).  MongoDB
object ids are modelled as strings; nullable fields as `Option String`. -/
structure ContentRec where
  id : String
  userId : String
  topic : String
  contentType : ContentType
  prompt : String
  generatedContent : Option String
  content : Option String
  jobId : Option String
  jobStatus : JobStatus
deriving DecidableEq, Repr

/-- The durable content store: the collection of Content documents. -/
abbrev Store := List ContentRec

/-- An `AppError` (`src/middleware/errorHandler.ts`): message plus HTTP
status code. -/
structure AppError where
  message : String
  statusCode : Nat
deriving DecidableEq, Repr

/-- JavaScript falsiness of a nullable string: `!x` is true for `null`
and for the empty string. -/
def strFalsy : Option String → Bool
  | none => true
  | some s => s == ""

/-- JavaScript `!doc?.content`: optional chaining on a possibly-missing
document followed by falsiness of its `content` field. -/
def contentFalsy : Option ContentRec → Bool
  | none => true
  | some r => strFalsy r.content

/-- The `$set` document built by `updateContentJobStatus`
(`src/unnamed/part_001` lines 162-171): `jobStatus` always, and
optionally `generatedContent` and `content`. -/
structure JobStatusUpdate where
  jobStatus : JobStatus
  generatedContent : Option String
  content : Option String
deriving DecidableEq, Repr

/-- Build the `$set` document of `updateContentJobStatus`: always sets
`jobStatus`; when a generated result is supplied it also sets
`generatedContent`, and sets `content` precisely when the pre-fetched
snapshot's `content` is falsy (`!existingContent?.content`). -/
def mkJobStatusUpdate (existing : Option ContentRec) (jobStatus : JobStatus)
    (generated : Option String) : JobStatusUpdate :=
  match generated with
  | none => ⟨jobStatus, none, none⟩
  | some g => ⟨jobStatus, some g, if contentFalsy existing then some g else none⟩

/-- Apply a `$set` document to one document. -/
def applyJobStatusUpdate (u : JobStatusUpdate) (r : ContentRec) : ContentRec :=
  { r with
    jobStatus := u.jobStatus
    generatedContent := match u.generatedContent with
      | some g => some g
      | none => r.generatedContent
    content := match u.content with
      | some g => some g
      | none => r.content }

/-- Predicate of the Mongo filter `{ jobId }`. -/
def jobIdMatches (jobId : String) (r : ContentRec) : Bool :=
  r.jobId == some jobId

/-- Mongo `Content.findOneAndUpdate` with filter `{ jobId }`, `$set: u` and `new: true`:
update the first matching document and return the post-update document. -/
def findOneAndUpdateByJobId (store : Store) (jobId : String)
    (u : JobStatusUpdate) : Store × Option ContentRec :=
  match store with
  | [] => ([], none)
  | r :: rest =>
    if jobIdMatches jobId r then
      (applyJobStatusUpdate u r :: rest, some (applyJobStatusUpdate u r))
    else
      (r :: (findOneAndUpdateByJobId rest jobId u).1,
        (findOneAndUpdateByJobId rest jobId u).2)

/-- Function `updateContentJobStatus` (`src/unnamed/part_001` lines 154-180) with
the two database reads separated: `preStore` is the state seen by the
initial `Content.findOne({ jobId })` snapshot and `updStore` the state
seen by the subsequent `findOneAndUpdate`. -/
def updateContentJobStatusRace (preStore updStore : Store) (jobId : String)
    (jobStatus : JobStatus) (generated : Option String) :
    Store × Option ContentRec :=
  let existing := preStore.find? (jobIdMatches jobId)
  findOneAndUpdateByJobId updStore jobId
    (mkJobStatusUpdate existing jobStatus generated)

/-- Function `updateContentJobStatus` when no concurrent interleaving occurs: both
reads see the same store. -/
def updateContentJobStatus (store : Store) (jobId : String)
    (jobStatus : JobStatus) (generated : Option String) :
    Store × Option ContentRec :=
  updateContentJobStatusRace store store jobId jobStatus generated

/-- Predicate of the Mongo filter `{ _id: contentId, userId }`. -/
def ownedMatches (contentId userId : String) (r : ContentRec) : Bool :=
  r.id == contentId && r.userId == userId

/-- Function `getContentById` (`src/unnamed/part_001` lines 87-101): owned lookup,
404 on absence or foreign ownership alike. -/
def getContentById (store : Store) (contentId userId : String) :
    Except AppError ContentRec :=
  match store.find? (ownedMatches contentId userId) with
  | none => .error ⟨"Content not found", 404⟩
  | some c => .ok c

/-- Function `getContentByJobId` (`src/unnamed/part_001` lines 187-189). -/
def getContentByJobId (store : Store) (jobId : String) : Option ContentRec :=
  store.find? (jobIdMatches jobId)

/-- The validated body of a user update: only `topic` and `content` exist
(`Partial<Pick<IContent, 'topic' | 'content'>>`). -/
structure UserUpdateFields where
  topic : Option String
  content : Option String
deriving DecidableEq, Repr

/-- Apply the `$set` of a user update to one document. -/
def applyUserUpdate (u : UserUpdateFields) (r : ContentRec) : ContentRec :=
  { r with
    topic := match u.topic with
      | some t => t
      | none => r.topic
    content := match u.content with
      | some s => some s
      | none => r.content }

/-- Mongo `findOneAndUpdate` with filter `{ _id, userId }`, `$set: updates`
and `new: true`, as used by `updateContent`. -/
def findOneAndUpdateOwned (store : Store) (contentId userId : String)
    (u : UserUpdateFields) : Store × Option ContentRec :=
  match store with
  | [] => ([], none)
  | r :: rest =>
    if ownedMatches contentId userId r then
      (applyUserUpdate u r :: rest, some (applyUserUpdate u r))
    else
      (r :: (findOneAndUpdateOwned rest contentId userId u).1,
        (findOneAndUpdateOwned rest contentId userId u).2)

/-- Function `updateContent` (`src/unnamed/part_001` lines 110-126). -/
def updateContent (store : Store) (contentId userId : String)
    (updates : UserUpdateFields) : Except AppError (Store × ContentRec) :=
  match (findOneAndUpdateOwned store contentId userId updates).2 with
  | none => .error ⟨"Content not found", 404⟩
  | some c => .ok ((findOneAndUpdateOwned store contentId userId updates).1, c)

/-- Write back a saved document (`doc.save()`): replace the first
document with the same `_id`. -/
def saveRec (store : Store) (r : ContentRec) : Store :=
  match store with
  | [] => []
  | x :: rest =>
    if x.id == r.id then r :: rest else x :: saveRec rest r

/-- Function `rollbackContent` (`src/unnamed/part_001` lines 198-220): owned
lookup, 400 when `!content.generatedContent`, else copy
`generatedContent` into `content` and save. -/
def rollbackContent (store : Store) (contentId userId : String) :
    Except AppError (Store × ContentRec) :=
  match store.find? (ownedMatches contentId userId) with
  | none => .error ⟨"Content not found", 404⟩
  | some c =>
    if strFalsy c.generatedContent then
      .error ⟨"No generated content available to rollback to", 400⟩
    else
      let c2 := { c with content := c.generatedContent }
      .ok (saveRec store c2, c2)

/-- Function `generatePrompt` (`src/unnamed/part_001` lines 11-21): static template
lookup over the closed `ContentType` enum. -/
def generatePrompt (contentType : ContentType) (topic : String) : String :=
  match contentType with
  | .blog_post_outline =>
      "Create a comprehensive blog post outline for the topic: \"" ++ topic ++
      "\". Include main headings, subheadings, and key points for each section."
  | .product_description =>
      "Write an engaging product description for: \"" ++ topic ++
      "\". Include key features, benefits, and a compelling call-to-action."
  | .social_media_caption =>
      "Create a catchy social media caption for: \"" ++ topic ++
      "\". Make it engaging, include relevant hashtags, and keep it appropriate for platforms like Instagram, Twitter, and Facebook."
  | .article =>
      "Write a well-structured article about: \"" ++ topic ++
      "\". Include an introduction, main body with multiple paragraphs, and a conclusion."
  | .email =>
      "Draft a professional email about: \"" ++ topic ++
      "\". Include a clear subject line suggestion and a well-structured email body."

/-- Function `createContent` (`src/unnamed/part_001` lines 30-48): a fresh document
with derived prompt, `jobStatus = queued`, and null nullable fields.
`newId` stands for the ObjectId Mongo mints for the document. -/
def createContent (userId topic : String) (contentType : ContentType)
    (newId : String) : ContentRec :=
  { id := newId
    userId := userId
    topic := topic
    contentType := contentType
    prompt := generatePrompt contentType topic
    generatedContent := none
    content := none
    jobId := none
    jobStatus := .queued }

/-- Function `addContentGenerationJob` (`src/src/queues/contentQueue.ts` lines
35-48): the queue job id is `content-` followed by the content id, and is
returned to the caller. -/
def addContentGenerationJob (contentId : String) : String :=
  "content-" ++ contentId

/-- Handler `createContentHandler` (`src/src/controllers/contentController.ts`
lines 35-84) after validation: create the document, submit the job, store
the returned job id on the document and save. -/
def createContentFlow (store : Store) (userId topic : String)
    (contentType : ContentType) (newId : String) : Store × ContentRec :=
  let c := createContent userId topic contentType newId
  let jobId := addContentGenerationJob c.id
  let c2 := { c with jobId := some jobId }
  (store ++ [c2], c2)

/-- A request body for PUT content, as the relevant JSON fields that may
or may not be present. -/
structure UpdateRequestBody where
  topic : Option String
  content : Option String
  generatedContent : Option String
  jobStatus : Option String
  prompt : Option String
  jobId : Option String
deriving DecidableEq, Repr

/-- Schema `updateContentSchema` (`src/src/controllers/contentController.ts`
lines 26-29): zod object in default strip mode keeps only `topic`
(optional, length 1-500) and `content` (optional string) and discards all
other keys; an out-of-range `topic` fails validation. -/
def updateContentSchemaParse (b : UpdateRequestBody) :
    Except AppError UserUpdateFields :=
  match b.topic with
  | none => .ok ⟨none, b.content⟩
  | some t =>
    if 1 ≤ t.length ∧ t.length ≤ 500 then .ok ⟨some t, b.content⟩
    else .error ⟨"Validation failed", 400⟩

/-- Handler `updateContentHandler` (`src/src/controllers/contentController.ts`
lines 148-179): validate the body, then apply `updateContent`. -/
def updateContentHandler (store : Store) (contentId userId : String)
    (body : UpdateRequestBody) : Except AppError (Store × ContentRec) :=
  match updateContentSchemaParse body with
  | .error e => .error e
  | .ok u => updateContent store contentId userId u

/-- The queue-side status record assembled by `getJobStatus`
(`src/src/queues/contentQueue.ts` lines 55-75). -/
structure QueueStatus where
  state : String
  progress : Nat
  returnValue : Option String
  failedReason : Option String
deriving DecidableEq, Repr

/-- The transient Job Queue contents, keyed by job id. -/
abbrev QueueState := List (String × QueueStatus)

/-- Call `contentQueue.getJob` followed by the field reads in `getJobStatus`:
null when the job id is absent from the queue. -/
def getJobStatus (queue : QueueState) (jobId : String) : Option QueueStatus :=
  (queue.find? (fun p => p.1 == jobId)).map Prod.snd

/-- Observable outcome of the job-status endpoint: an error response with
status code and message, or the 200 payload fields actually serialized
(`src/src/controllers/contentController.ts` lines 240-257). -/
inductive JobStatusOutcome
  | err (status : Nat) (message : String)
  | ok (jobId : String) (queueState : QueueStatus) (contentId : String)
      (jobStatus : JobStatus) (generatedContent : Option String)
      (content : Option String)
deriving DecidableEq, Repr

/-- Handler `getJobStatusHandler` (`src/src/controllers/contentController.ts`
lines 206-258) for an authenticated requester: 404 when the queue has no
job; otherwise 404 when no content document carries the job id or the
document's owner differs from the requester; otherwise the merged view. -/
def getJobStatusHandler (queue : QueueState) (store : Store)
    (requesterId jobId : String) : JobStatusOutcome :=
  match getJobStatus queue jobId with
  | none => .err 404 "Job not found"
  | some qs =>
    match getContentByJobId store jobId with
    | none => .err 404 "Content not found or access denied"
    | some c =>
      if c.userId == requesterId then
        .ok jobId qs c.id c.jobStatus c.generatedContent c.content
      else
        .err 404 "Content not found or access denied"

/-- A message published on the `job-updates` Redis channel
(`src/src/worker.ts` lines 60-68 and 86-94). -/
structure JobUpdateMsg where
  jobId : String
  contentId : String
  status : JobStatus
  generatedContent : Option String
  error : Option String
deriving DecidableEq, Repr

/-- One externally visible side effect of the worker processor, in
program order: an awaited content-store write or an Event Bridge
publish. -/
inductive Effect
  | storeWrite (jobId : String) (status : JobStatus) (generated : Option String)
  | publish (msg : JobUpdateMsg)
deriving DecidableEq, Repr

/-- One attempt of the worker processor (`src/src/worker.ts` lines
30-99).  `genResult` is the outcome of the generation collaborator
(`aiService.generateContent`): a generated text or a thrown error
message.  Returns the store after the attempt, the ordered effect trace,
and the value returned to BullMQ (`.error` meaning the error was
re-thrown for retry accounting). -/
def processJobAttempt (store : Store) (jobId contentId : String)
    (genResult : Except String String) :
    Store × List Effect × Except String String :=
  let s1 := (updateContentJobStatus store jobId .processing none).1
  let e1 := Effect.storeWrite jobId .processing none
  match genResult with
  | .error err =>
    let s2 := (updateContentJobStatus s1 jobId .failed none).1
    let msg : JobUpdateMsg := ⟨jobId, contentId, .failed, none, some err⟩
    (s2, [e1, .storeWrite jobId .failed none, .publish msg], .error err)
  | .ok g =>
    match (updateContentJobStatus s1 jobId .completed (some g)).2 with
    | none =>
      let s2 := (updateContentJobStatus s1 jobId .completed (some g)).1
      let err := "Content not found for job ID: " ++ jobId
      let s3 := (updateContentJobStatus s2 jobId .failed none).1
      let msg : JobUpdateMsg := ⟨jobId, contentId, .failed, none, some err⟩
      (s3, [e1, .storeWrite jobId .completed (some g),
        .storeWrite jobId .failed none, .publish msg], .error err)
    | some c =>
      let s2 := (updateContentJobStatus s1 jobId .completed (some g)).1
      let msg : JobUpdateMsg := ⟨jobId, c.id, .completed, some g, none⟩
      (s2, [e1, .storeWrite jobId .completed (some g), .publish msg], .ok g)

/-- Job queue retry configuration (`src/src/queues/contentQueue.ts` lines
19-28): `attempts: 3`, exponential backoff with base delay 2000 ms. -/
structure QueueConfig where
  attempts : Nat
  backoffBase : Nat
deriving DecidableEq, Repr

/-- The configuration of `contentQueue`. -/
def contentQueueConfig : QueueConfig := ⟨3, 2000⟩

/-- Modelled from the spec: the Job Queue's retry rule (the BullMQ
machinery itself is not repository code) — on handler failure the job is
re-enqueued with delay `backoff.base * 2^(attemptsMade - 1)`. -/
def backoffDelay (base attemptsMade : Nat) : Nat :=
  base * 2 ^ (attemptsMade - 1)

/-- Terminal outcome of a queue job. -/
inductive JobFinal
  | completed (ret : String)
  | failed (reason : String)
deriving DecidableEq, Repr

/-- Modelled from the spec: the Job Queue's attempt loop (BullMQ is not
repository code) — run attempts while any remain; a failed attempt with
attempts remaining is retried after the exponential backoff delay; after
the final failed attempt the job is terminal `failed` and never retried.
`attemptsMade` counts attempts already made; `remaining` attempts are
left.  Returns the terminal state, the total number of attempts made and
the list of backoff delays between consecutive attempts. -/
def runAttempts (outcome : Nat → Except String String) (base : Nat) :
    Nat → Nat → JobFinal × Nat × List Nat
  | _, 0 => (.failed "no attempts configured", 0, [])
  | attemptsMade, r + 1 =>
    let n := attemptsMade + 1
    match outcome n with
    | .ok g => (.completed g, n, [])
    | .error e =>
      if r = 0 then (.failed e, n, [])
      else
        let rest := runAttempts outcome base n r
        (rest.1, rest.2.1, backoffDelay base n :: rest.2.2)

/-- Modelled from the spec: a job's full life in the Job Queue under a
given per-attempt collaborator outcome. -/
def runJob (cfg : QueueConfig) (outcome : Nat → Except String String) :
    JobFinal × Nat × List Nat :=
  runAttempts outcome cfg.backoffBase 0 cfg.attempts

/-- The `(_id, jobId)` view of a store, used to state that operations
never move or rewrite job ids. -/
def idJobIdPairs (s : Store) : List (String × Option String) :=
  s.map (fun r => (r.id, r.jobId))

/-- All fields of a document except the user-updatable `topic` and
`content`. -/
def frameFields (r : ContentRec) :
    String × String × String × ContentType × Option String × Option String ×
      JobStatus :=
  (r.id, r.userId, r.prompt, r.contentType, r.generatedContent, r.jobId,
    r.jobStatus)

/-- Scan an effect trace, accumulating the `(jobId, status)` pairs already
written to the content store, and check that every publish is preceded by
a store write for the same job and transition. -/
def publishCoveredBy (written : List (String × JobStatus)) :
    List Effect → Bool
  | [] => true
  | .storeWrite jid st _ :: rest => publishCoveredBy ((jid, st) :: written) rest
  | .publish m :: rest =>
      written.contains (m.jobId, m.status) && publishCoveredBy written rest

/-- Every publish in the trace is preceded by a content-store write for
the same job id and the same status. -/
def storeWritePrecedesPublish (effs : List Effect) : Bool :=
  publishCoveredBy [] effs

/-- Demo store for the job-status fallback scenario: one completed,
owned content document whose job the queue no longer holds. -/
def prunedJobStore : Store :=
  [⟨"c2", "u2", "t", .article, "p", some "AI", some "AI", some "content-c2",
    .completed⟩]

/-- Demo record whose `generatedContent` is the empty string. -/
def emptyGenRec : ContentRec :=
  ⟨"c7", "u7", "t", .article, "p", some "", some "draft", some "content-c7",
    .completed⟩

/-- Demo store before the user edit in the completion-clobbering
scenario. -/
def clobberStore0 : Store :=
  [⟨"c1", "u1", "t", .article, "p", none, none, some "content-c1",
    .processing⟩]

/-- PUT body that sets `content` to the empty string. -/
def emptyContentBody : UpdateRequestBody :=
  ⟨none, some "", none, none, none, none⟩

/-- Store `clobberStore0` after the user edit setting `content := ""`. -/
def clobberStore1 : Store :=
  [⟨"c1", "u1", "t", .article, "p", none, some "", some "content-c1",
    .processing⟩]

end AICG

namespace AICG

example :
    (updateContentJobStatus
      [⟨"c1", "u1", "t", .article, "p", none, none, some "content-c1", .queued⟩]
      "content-c1" .completed (some "AI")).2 =
    some ⟨"c1", "u1", "t", .article, "p", some "AI", some "AI", some "content-c1",
      .completed⟩ := by
  decide

example :
    (updateContentJobStatus
      [⟨"c1", "u1", "t", .article, "p", none, some "edited", some "content-c1",
        .queued⟩]
      "content-c1" .completed (some "AI")).2 =
    some ⟨"c1", "u1", "t", .article, "p", some "AI", some "edited",
      some "content-c1", .completed⟩ := by
  decide

example :
    rollbackContent
      [⟨"c1", "u1", "t", .article, "p", some "X", some "edited", none, .completed⟩]
      "c1" "u1" =
    .ok ([⟨"c1", "u1", "t", .article, "p", some "X", some "X", none, .completed⟩],
      ⟨"c1", "u1", "t", .article, "p", some "X", some "X", none, .completed⟩) := by
  rfl

end AICG

namespace AICG

theorem applyJobStatusUpdate_statusOnly (st : JobStatus) (r : ContentRec) :
    applyJobStatusUpdate ⟨st, none, none⟩ r = { r with jobStatus := st } := rfl

theorem jobIdMatches_applyJobStatusUpdate (jid : String) (u : JobStatusUpdate)
    (r : ContentRec) :
    jobIdMatches jid (applyJobStatusUpdate u r) = jobIdMatches jid r := rfl

theorem findOneAndUpdateByJobId_snd (store : Store) (jid : String)
    (u : JobStatusUpdate) :
    (findOneAndUpdateByJobId store jid u).2 =
      (store.find? (jobIdMatches jid)).map (applyJobStatusUpdate u) := by
  induction store with
  | nil => rfl
  | cons r rest ih =>
    by_cases hr : jobIdMatches jid r
    · simp [findOneAndUpdateByJobId, hr, List.find?_cons_of_pos _ hr]
    · simp only [findOneAndUpdateByJobId, hr, Bool.false_eq_true, if_false,
        List.find?_cons_of_neg _ hr]
      exact ih

theorem findOneAndUpdateByJobId_fst_find? (store : Store) (jid : String)
    (u : JobStatusUpdate) :
    ((findOneAndUpdateByJobId store jid u).1).find? (jobIdMatches jid) =
      (store.find? (jobIdMatches jid)).map (applyJobStatusUpdate u) := by
  induction store with
  | nil => rfl
  | cons r rest ih =>
    by_cases hr : jobIdMatches jid r
    · have hr' : jobIdMatches jid (applyJobStatusUpdate u r) = true := by
        rw [jobIdMatches_applyJobStatusUpdate]; exact hr
      simp [findOneAndUpdateByJobId, hr, List.find?_cons_of_pos _ hr,
        List.find?_cons_of_pos _ hr']
    · simp only [findOneAndUpdateByJobId, hr, Bool.false_eq_true, if_false,
        List.find?_cons_of_neg _ hr]
      exact ih

theorem updateContentJobStatus_snd (store : Store) (jid : String)
    (st : JobStatus) (g : Option String) :
    (updateContentJobStatus store jid st g).2 =
      (store.find? (jobIdMatches jid)).map
        (applyJobStatusUpdate
          (mkJobStatusUpdate (store.find? (jobIdMatches jid)) st g)) := by
  unfold updateContentJobStatus updateContentJobStatusRace
  exact findOneAndUpdateByJobId_snd store jid _

theorem updateContentJobStatus_fst_find? (store : Store) (jid : String)
    (st : JobStatus) (g : Option String) :
    ((updateContentJobStatus store jid st g).1).find? (jobIdMatches jid) =
      (store.find? (jobIdMatches jid)).map
        (applyJobStatusUpdate
          (mkJobStatusUpdate (store.find? (jobIdMatches jid)) st g)) := by
  unfold updateContentJobStatus updateContentJobStatusRace
  exact findOneAndUpdateByJobId_fst_find? store jid _

end AICG

namespace AICG

/-- C3: on every collaborator failure (any attempt, since the statement
holds for every store state and error), the worker processor writes
`jobStatus = failed` to the owning Content record, publishes
`{jobId, contentId, status: failed, error}` on the `job-updates`
channel after that write, and re-raises the error to the queue. -/
theorem worker_failure_attempt_spec (store : Store)
    (jobId contentId err : String) :
    (processJobAttempt store jobId contentId (.error err)).2.1 =
      [.storeWrite jobId .processing none, .storeWrite jobId .failed none,
        .publish ⟨jobId, contentId, .failed, none, some err⟩] ∧
    (processJobAttempt store jobId contentId (.error err)).2.2 =
      .error err ∧
    ∀ r, store.find? (jobIdMatches jobId) = some r →
      ((processJobAttempt store jobId contentId (.error err)).1).find?
        (jobIdMatches jobId) = some { r with jobStatus := .failed } := by
  refine ⟨rfl, rfl, ?_⟩
  intro r hr
  show ((updateContentJobStatus
      (updateContentJobStatus store jobId .processing none).1
      jobId .failed none).1).find? (jobIdMatches jobId) =
    some { r with jobStatus := .failed }
  rw [updateContentJobStatus_fst_find?, updateContentJobStatus_fst_find?, hr]
  rfl

/-- C3 witness at a concrete store, error and job id. -/
theorem worker_failure_attempt_spec_witness :
    ((processJobAttempt clobberStore1 "content-c1" "c1" (.error "boom")).1).find?
        (jobIdMatches "content-c1") =
      some ⟨"c1", "u1", "t", .article, "p", none, some "", some "content-c1",
        .failed⟩ :=
  (worker_failure_attempt_spec clobberStore1 "content-c1" "c1" "boom").2.2
    ⟨"c1", "u1", "t", .article, "p", none, some "", some "content-c1",
      .processing⟩ (by rfl)

/-- C4: in every execution path of the worker processor, each Event
Bridge publish is preceded in the effect trace by an awaited Content
Store write for the same job and the same terminal transition. -/
theorem worker_write_precedes_publish (store : Store)
    (jobId contentId : String) (genResult : Except String String) :
    storeWritePrecedesPublish
      (processJobAttempt store jobId contentId genResult).2.1 = true := by
  cases genResult with
  | error err =>
    simp [processJobAttempt, storeWritePrecedesPublish, publishCoveredBy,
      List.contains]
  | ok g =>
    simp only [processJobAttempt]
    split
    · simp [storeWritePrecedesPublish, publishCoveredBy, List.contains]
    · simp [storeWritePrecedesPublish, publishCoveredBy, List.contains]

/-- C5, counterexample to the claimed backoff schedule: with the queue's
configuration (3 attempts, base 2000 ms) an always-failing job makes
exactly 3 attempts but has only the two backoff delays 2000 ms and
4000 ms between them — not 2s, 4s, 8s. -/
theorem always_failing_job_delays_counterexample :
    runJob contentQueueConfig (fun _ => .error "boom") =
      (.failed "boom", 3, [2000, 4000]) ∧
    (runJob contentQueueConfig (fun _ => .error "boom")).2.2 ≠
      [2000, 4000, 8000] := by
  constructor
  · rfl
  · intro h
    have : ([2000, 4000] : List Nat) = [2000, 4000, 8000] := h
    simp at this

/-- C5 as amended: a job whose handler fails on every attempt reaches
terminal `failed` after exactly `maxAttempts = 3` attempts and is never
retried afterwards; the backoff delays between consecutive attempts are
`2000 * 2^(attemptsMade-1)` ms, i.e. 2000 ms then 4000 ms. -/
theorem always_failing_job_terminal (errs : Nat → String) :
    runJob contentQueueConfig (fun n => .error (errs n)) =
      (.failed (errs 3), 3,
        [backoffDelay 2000 1, backoffDelay 2000 2]) ∧
    backoffDelay 2000 1 = 2000 ∧ backoffDelay 2000 2 = 4000 := by
  exact ⟨rfl, rfl, rfl⟩

end AICG

namespace AICG

theorem applyCompletion_content (existing : Option ContentRec)
    (r : ContentRec) (g : String) :
    (applyJobStatusUpdate (mkJobStatusUpdate existing .completed (some g))
        r).content =
      if contentFalsy existing then some g else r.content := by
  by_cases h : contentFalsy existing <;>
    simp [mkJobStatusUpdate, applyJobStatusUpdate, h]

theorem applyCompletion_generatedContent (existing : Option ContentRec)
    (r : ContentRec) (g : String) :
    (applyJobStatusUpdate (mkJobStatusUpdate existing .completed (some g))
        r).generatedContent = some g := by
  by_cases h : contentFalsy existing <;>
    simp [mkJobStatusUpdate, applyJobStatusUpdate, h]

theorem applyCompletion_jobStatus (existing : Option ContentRec)
    (r : ContentRec) (g : String) :
    (applyJobStatusUpdate (mkJobStatusUpdate existing .completed (some g))
        r).jobStatus = .completed := by
  by_cases h : contentFalsy existing <;>
    simp [mkJobStatusUpdate, applyJobStatusUpdate, h]

/-- C1 as amended: a completion write sets `generatedContent` to the new
result and `jobStatus` to completed; it seeds `content` with the result
when `content` was null — or the empty string — before the write, and
leaves `content` unchanged only when it previously held a non-empty
value.  (The unamended "a prior user edit is never clobbered" fails when
the user edit set `content` to `""`.) -/
theorem completion_write_content_rules (store : Store) (jid g : String)
    (r : ContentRec) (hr : store.find? (jobIdMatches jid) = some r) :
    ∃ r', (updateContentJobStatus store jid .completed (some g)).2 = some r' ∧
      r'.generatedContent = some g ∧
      r'.jobStatus = .completed ∧
      (r.content = none → r'.content = some g) ∧
      (r.content = some "" → r'.content = some g) ∧
      (∀ s, r.content = some s → s ≠ "" → r'.content = some s) := by
  rw [updateContentJobStatus_snd, hr]
  refine ⟨_, rfl, applyCompletion_generatedContent _ _ _,
    applyCompletion_jobStatus _ _ _, ?_, ?_, ?_⟩
  · intro h
    rw [applyCompletion_content]
    simp [contentFalsy, strFalsy, h]
  · intro h
    rw [applyCompletion_content]
    simp [contentFalsy, strFalsy, h]
  · intro s hs hne
    rw [applyCompletion_content]
    simp [contentFalsy, strFalsy, hs, hne]

/-- C1 witness: a record with null `content` is seeded on completion. -/
theorem completion_write_content_rules_witness :
    ∃ r', (updateContentJobStatus clobberStore0 "content-c1" .completed
        (some "AI")).2 = some r' ∧
      r'.generatedContent = some "AI" ∧
      r'.jobStatus = .completed ∧
      ((⟨"c1", "u1", "t", .article, "p", none, none, some "content-c1",
          .processing⟩ : ContentRec).content = none → r'.content = some "AI") ∧
      ((⟨"c1", "u1", "t", .article, "p", none, none, some "content-c1",
          .processing⟩ : ContentRec).content = some "" →
        r'.content = some "AI") ∧
      (∀ s, (⟨"c1", "u1", "t", .article, "p", none, none, some "content-c1",
          .processing⟩ : ContentRec).content = some s → s ≠ "" →
        r'.content = some s) :=
  completion_write_content_rules clobberStore0 "content-c1" "AI"
    ⟨"c1", "u1", "t", .article, "p", none, none, some "content-c1",
      .processing⟩ (by rfl)

/-- C1 counterexample: after a user edit sets `content` to the empty
string, a completion write replaces it with the generated result, so a
prior user edit is not always preserved. -/
theorem completion_clobbers_empty_edit_counterexample :
    updateContentHandler clobberStore0 "c1" "u1" emptyContentBody =
      .ok (clobberStore1,
        ⟨"c1", "u1", "t", .article, "p", none, some "", some "content-c1",
          .processing⟩) ∧
    (updateContentJobStatus clobberStore1 "content-c1" .completed
        (some "AI")).2 =
      some ⟨"c1", "u1", "t", .article, "p", some "AI", some "AI",
        some "content-c1", .completed⟩ ∧
    (some "AI" : Option String) ≠ some "" := by
  refine ⟨rfl, rfl, by decide⟩

/-- C10: the completion write's emptiness test is JavaScript falsiness on
the separately fetched pre-check snapshot: `content` is overwritten with
the generated result precisely when the snapshot was missing, had null
`content`, or had `content = ""`; only a non-empty snapshot `content`
survives. -/
theorem completion_falsiness_race (preStore updStore : Store)
    (jid g : String) (r2 : ContentRec)
    (h2 : updStore.find? (jobIdMatches jid) = some r2) :
    ∃ r2', (updateContentJobStatusRace preStore updStore jid .completed
        (some g)).2 = some r2' ∧
      r2'.content =
        (if contentFalsy (preStore.find? (jobIdMatches jid)) then some g
          else r2.content) ∧
      (contentFalsy (preStore.find? (jobIdMatches jid)) = true ↔
        preStore.find? (jobIdMatches jid) = none ∨
        ∃ r, preStore.find? (jobIdMatches jid) = some r ∧
          (r.content = none ∨ r.content = some "")) := by
  unfold updateContentJobStatusRace
  rw [findOneAndUpdateByJobId_snd, h2]
  refine ⟨_, rfl, applyCompletion_content _ _ _, ?_⟩
  cases hpre : preStore.find? (jobIdMatches jid) with
  | none => simp [contentFalsy]
  | some r =>
    cases hc : r.content with
    | none => simp [contentFalsy, strFalsy, hc]
    | some s =>
      simp only [contentFalsy, strFalsy, hc]
      constructor
      · intro hs
        refine .inr ⟨r, rfl, .inr ?_⟩
        rw [hc]
        simp only [beq_iff_eq] at hs
        rw [hs]
      · rintro (h | ⟨r0, hr0, h0⟩)
        · exact absurd h (by simp)
        · obtain rfl : r = r0 := by injection hr0
          rw [hc] at h0
          rcases h0 with h0 | h0
          · exact absurd h0 (by simp)
          · obtain rfl : s = "" := by injection h0
            decide

/-- C10 witness: the pre-check missed the record (snapshot store empty)
while the update found it with non-empty `content`; completion still
overwrites. -/
theorem completion_falsiness_race_witness :
    ∃ r2', (updateContentJobStatusRace [] prunedJobStore "content-c2"
        .completed (some "NEW")).2 = some r2' ∧
      r2'.content =
        (if contentFalsy (([] : Store).find? (jobIdMatches "content-c2"))
          then some "NEW"
          else (⟨"c2", "u2", "t", .article, "p", some "AI", some "AI",
            some "content-c2", .completed⟩ : ContentRec).content) ∧
      (contentFalsy (([] : Store).find? (jobIdMatches "content-c2")) = true ↔
        ([] : Store).find? (jobIdMatches "content-c2") = none ∨
        ∃ r, ([] : Store).find? (jobIdMatches "content-c2") = some r ∧
          (r.content = none ∨ r.content = some "")) :=
  completion_falsiness_race [] prunedJobStore "content-c2" "NEW"
    ⟨"c2", "u2", "t", .article, "p", some "AI", some "AI", some "content-c2",
      .completed⟩ (by rfl)

/-- C2 counterexample: the job id is absent from the queue while the
Content record exists, is owned by the requester and is completed, yet
the status endpoint answers 404 Job not found instead of falling back to
the persisted data. -/
theorem pruned_job_no_fallback_counterexample :
    getJobStatus [] "content-c2" = none ∧
    getContentByJobId prunedJobStore "content-c2" =
      some ⟨"c2", "u2", "t", .article, "p", some "AI", some "AI",
        some "content-c2", .completed⟩ ∧
    getJobStatusHandler [] prunedJobStore "u2" "content-c2" =
      .err 404 "Job not found" := by
  exact ⟨rfl, rfl, rfl⟩

/-- C2 as amended: whenever the job id is absent from the Job Queue the
status endpoint returns 404 Job not found, regardless of the Content
record; no fallback to the Content Store occurs. -/
theorem job_absent_always_not_found (queue : QueueState) (store : Store)
    (requesterId jobId : String) (h : getJobStatus queue jobId = none) :
    getJobStatusHandler queue store requesterId jobId =
      .err 404 "Job not found" := by
  simp [getJobStatusHandler, h]

/-- C2 witness for the amended statement. -/
theorem job_absent_always_not_found_witness :
    getJobStatusHandler [] prunedJobStore "u2" "content-c2" =
      .err 404 "Job not found" :=
  job_absent_always_not_found [] prunedJobStore "u2" "content-c2" (by rfl)

end AICG

namespace AICG

theorem idJobIdPairs_findOneAndUpdateByJobId (store : Store) (jid : String)
    (u : JobStatusUpdate) :
    idJobIdPairs (findOneAndUpdateByJobId store jid u).1 =
      idJobIdPairs store := by
  induction store with
  | nil => rfl
  | cons r rest ih =>
    by_cases hr : jobIdMatches jid r
    · simp [findOneAndUpdateByJobId, hr, idJobIdPairs, applyJobStatusUpdate]
    · simp only [findOneAndUpdateByJobId, hr, Bool.false_eq_true, if_false,
        idJobIdPairs, List.map_cons]
      exact congrArg (List.cons (r.id, r.jobId)) ih

theorem idJobIdPairs_findOneAndUpdateOwned (store : Store)
    (cid uid : String) (u : UserUpdateFields) :
    idJobIdPairs (findOneAndUpdateOwned store cid uid u).1 =
      idJobIdPairs store := by
  induction store with
  | nil => rfl
  | cons r rest ih =>
    by_cases hr : ownedMatches cid uid r
    · simp [findOneAndUpdateOwned, hr, idJobIdPairs, applyUserUpdate]
    · simp only [findOneAndUpdateOwned, hr, Bool.false_eq_true, if_false,
        idJobIdPairs, List.map_cons]
      exact congrArg (List.cons (r.id, r.jobId)) ih

theorem mem_saveRec (store : Store) (rnew x : ContentRec)
    (hx : x ∈ saveRec store rnew) : x ∈ store ∨ x = rnew := by
  induction store with
  | nil => simp [saveRec] at hx
  | cons y rest ih =>
    by_cases h : (y.id == rnew.id) = true
    · simp only [saveRec, h, if_true, List.mem_cons] at hx
      rcases hx with rfl | hx
      · exact .inr rfl
      · exact .inl (List.mem_cons_of_mem _ hx)
    · simp only [saveRec, h, Bool.false_eq_true, if_false,
        List.mem_cons] at hx
      rcases hx with rfl | hx
      · exact .inl (List.mem_cons_self _ _)
      · rcases ih hx with h1 | h1
        · exact .inl (List.mem_cons_of_mem _ h1)
        · exact .inr h1

/-- C6: at creation the job id is the string `content-` followed by the
content id, it is stored on the record, and no later operation of the
service (worker status write, user update, rollback) changes any
record's `jobId` (or moves it to a different `_id`). -/
theorem jobId_deterministic_and_stable :
    (∀ store uid topic ct newId,
      (createContentFlow store uid topic ct newId).2.jobId =
        some ("content-" ++ newId) ∧
      (createContentFlow store uid topic ct newId).2.id = newId ∧
      addContentGenerationJob newId = "content-" ++ newId) ∧
    (∀ store jid st g,
      idJobIdPairs (updateContentJobStatus store jid st g).1 =
        idJobIdPairs store) ∧
    (∀ store cid uid u s' c, updateContent store cid uid u = .ok (s', c) →
      idJobIdPairs s' = idJobIdPairs store) ∧
    (∀ store cid uid s' c, rollbackContent store cid uid = .ok (s', c) →
      ∀ r' ∈ s', (r'.id, r'.jobId) ∈ idJobIdPairs store) := by
  refine ⟨fun store uid topic ct newId => ⟨rfl, rfl, rfl⟩, ?_, ?_, ?_⟩
  · intro store jid st g
    exact idJobIdPairs_findOneAndUpdateByJobId store jid _
  · intro store cid uid u s' c h
    unfold updateContent at h
    cases h2 : (findOneAndUpdateOwned store cid uid u).2 with
    | none => rw [h2] at h; exact absurd h (by simp)
    | some c0 =>
      rw [h2] at h
      obtain ⟨rfl, rfl⟩ : (findOneAndUpdateOwned store cid uid u).1 = s' ∧
          c0 = c := by
        refine ⟨?_, ?_⟩ <;> injection h with h' <;>
          [exact congrArg Prod.fst h'; exact congrArg Prod.snd h']
      exact idJobIdPairs_findOneAndUpdateOwned store cid uid u
  · intro store cid uid s' c h
    unfold rollbackContent at h
    cases hc : store.find? (ownedMatches cid uid) with
    | none => rw [hc] at h; exact absurd h (by simp)
    | some c0 =>
      simp only [hc] at h
      by_cases hf : strFalsy c0.generatedContent = true
      · rw [if_pos hf] at h; exact absurd h (by simp)
      · rw [if_neg hf] at h
        obtain ⟨rfl, rfl⟩ :
            saveRec store { c0 with content := c0.generatedContent } = s' ∧
            { c0 with content := c0.generatedContent } = c := by
          refine ⟨?_, ?_⟩ <;> injection h with h' <;>
            [exact congrArg Prod.fst h'; exact congrArg Prod.snd h']
        intro r' hr'
        rcases mem_saveRec store _ r' hr' with hm | rfl
        · exact List.mem_map_of_mem _ hm
        · have hc0 : c0 ∈ store := List.mem_of_find?_eq_some hc
          exact List.mem_map_of_mem (fun r => (r.id, r.jobId)) hc0

/-- C6 witness: a user update and a rollback on concrete stores keep all
`(_id, jobId)` pairs. -/
theorem jobId_deterministic_and_stable_witness :
    idJobIdPairs clobberStore1 = idJobIdPairs clobberStore0 ∧
    ∀ r' ∈ [(⟨"c1", "u1", "t", .article, "p", some "X", some "X", none,
        .completed⟩ : ContentRec)],
      (r'.id, r'.jobId) ∈ idJobIdPairs
        [⟨"c1", "u1", "t", .article, "p", some "X", some "edited", none,
          .completed⟩] :=
  ⟨jobId_deterministic_and_stable.2.2.1 clobberStore0 "c1" "u1"
      ⟨none, some ""⟩ clobberStore1
      ⟨"c1", "u1", "t", .article, "p", none, some "", some "content-c1",
        .processing⟩ (by rfl),
    jobId_deterministic_and_stable.2.2.2
      [⟨"c1", "u1", "t", .article, "p", some "X", some "edited", none,
        .completed⟩] "c1" "u1"
      [⟨"c1", "u1", "t", .article, "p", some "X", some "X", none,
        .completed⟩]
      ⟨"c1", "u1", "t", .article, "p", some "X", some "X", none, .completed⟩
      (by rfl)⟩

end AICG

namespace AICG

/-- C7 counterexample: a record whose `generatedContent` is the empty
string — not null — still fails rollback with the 400 InvalidState
error, because the guard is JavaScript falsiness, not a null check. -/
theorem rollback_empty_generated_counterexample :
    rollbackContent [emptyGenRec] "c7" "u7" =
      .error ⟨"No generated content available to rollback to", 400⟩ ∧
    emptyGenRec.generatedContent = some "" ∧
    (some "" : Option String) ≠ none := by
  exact ⟨rfl, rfl, by decide⟩

/-- C7 as amended: rollback on the owned record fails with the 400
InvalidState error if and only if `generatedContent` is null or the
empty string; otherwise it sets `content = generatedContent` and leaves
`generatedContent` and `jobStatus` unchanged. -/
theorem rollback_spec_amended (store : Store) (cid uid : String)
    (c : ContentRec) (hc : store.find? (ownedMatches cid uid) = some c) :
    ((c.generatedContent = none ∨ c.generatedContent = some "") →
      rollbackContent store cid uid =
        .error ⟨"No generated content available to rollback to", 400⟩) ∧
    (∀ s, c.generatedContent = some s → s ≠ "" →
      ∃ s' c2, rollbackContent store cid uid = .ok (s', c2) ∧
        c2.content = c.generatedContent ∧
        c2.generatedContent = c.generatedContent ∧
        c2.jobStatus = c.jobStatus) := by
  constructor
  · intro h
    have hf : strFalsy c.generatedContent = true := by
      rcases h with h | h <;> rw [h] <;> rfl
    unfold rollbackContent
    simp only [hc, hf, if_true]
  · intro s hs hne
    have hf : strFalsy c.generatedContent = false := by
      rw [hs]
      simpa [strFalsy] using hne
    unfold rollbackContent
    simp only [hc, hf, Bool.false_eq_true, if_false]
    exact ⟨_, _, rfl, rfl, rfl, rfl⟩

/-- C7 witness: rollback on a record with non-empty generated content
succeeds and restores `content`. -/
theorem rollback_spec_amended_witness :
    ∃ s' c2, rollbackContent
        [⟨"c1", "u1", "t", .article, "p", some "X", some "edited", none,
          .completed⟩] "c1" "u1" = .ok (s', c2) ∧
      c2.content = (⟨"c1", "u1", "t", .article, "p", some "X", some "edited",
        none, .completed⟩ : ContentRec).generatedContent ∧
      c2.generatedContent = (⟨"c1", "u1", "t", .article, "p", some "X",
        some "edited", none, .completed⟩ : ContentRec).generatedContent ∧
      c2.jobStatus = (⟨"c1", "u1", "t", .article, "p", some "X",
        some "edited", none, .completed⟩ : ContentRec).jobStatus :=
  (rollback_spec_amended
    [⟨"c1", "u1", "t", .article, "p", some "X", some "edited", none,
      .completed⟩] "c1" "u1"
    ⟨"c1", "u1", "t", .article, "p", some "X", some "edited", none,
      .completed⟩ (by rfl)).2 "X" (by rfl) (by decide)

theorem frameFields_applyUserUpdate (u : UserUpdateFields) (r : ContentRec) :
    frameFields (applyUserUpdate u r) = frameFields r := rfl

theorem frameFields_findOneAndUpdateOwned (store : Store) (cid uid : String)
    (u : UserUpdateFields) :
    ((findOneAndUpdateOwned store cid uid u).1).map frameFields =
      store.map frameFields := by
  induction store with
  | nil => rfl
  | cons r rest ih =>
    by_cases hr : ownedMatches cid uid r
    · simp [findOneAndUpdateOwned, hr, frameFields_applyUserUpdate]
    · simp only [findOneAndUpdateOwned, hr, Bool.false_eq_true, if_false,
        List.map_cons]
      exact congrArg (List.cons (frameFields r)) ih

/-- C8: a user update (PUT content/{id}) with any request body — even one
attempting to set `generatedContent`, `jobStatus`, `prompt` or `jobId` —
leaves every record's `id`, `userId`, `prompt`, `contentType`,
`generatedContent`, `jobId` and `jobStatus` unchanged: only `topic` and
`content` can change. -/
theorem user_update_frame (store : Store) (cid uid : String)
    (body : UpdateRequestBody) (s' : Store) (c : ContentRec)
    (h : updateContentHandler store cid uid body = .ok (s', c)) :
    s'.map frameFields = store.map frameFields := by
  unfold updateContentHandler at h
  cases hp : updateContentSchemaParse body with
  | error e => rw [hp] at h; exact absurd h (by simp)
  | ok u =>
    rw [hp] at h
    have hu : updateContent store cid uid u = .ok (s', c) := h
    unfold updateContent at hu
    cases h2 : (findOneAndUpdateOwned store cid uid u).2 with
    | none => rw [h2] at hu; exact absurd hu (by simp)
    | some c0 =>
      rw [h2] at hu
      obtain ⟨rfl, rfl⟩ : (findOneAndUpdateOwned store cid uid u).1 = s' ∧
          c0 = c := by
        refine ⟨?_, ?_⟩ <;> injection hu with h' <;>
          [exact congrArg Prod.fst h'; exact congrArg Prod.snd h']
      exact frameFields_findOneAndUpdateOwned store cid uid u

/-- C8 witness: a body that tries to set `generatedContent`, `jobStatus`,
`prompt` and `jobId` changes none of the protected fields. -/
theorem user_update_frame_witness :
    ([⟨"c1", "u1", "T2", .article, "p", none, some "hello",
        some "content-c1", .processing⟩] : Store).map frameFields =
      clobberStore0.map frameFields :=
  user_update_frame clobberStore0 "c1" "u1"
    ⟨some "T2", some "hello", some "HACK", some "completed", some "HACK",
      some "HACK"⟩
    [⟨"c1", "u1", "T2", .article, "p", none, some "hello",
      some "content-c1", .processing⟩]
    ⟨"c1", "u1", "T2", .article, "p", none, some "hello",
      some "content-c1", .processing⟩ (by rfl)

/-- C9: absence of a record and existence under a different owner are
observationally identical: the job-status endpoint returns the same
response in both situations (for any queue state), and the owned content
lookup returns the same 404 NotFound error in both — never a distinct
authorization error. -/
theorem notfound_hides_ownership (queue : QueueState)
    (store1 store2 store3 store4 : Store) (uid jid cid : String)
    (h1 : getContentByJobId store1 jid = none)
    (h2 : ∀ r, getContentByJobId store2 jid = some r → r.userId ≠ uid)
    (h3 : ∀ r ∈ store3, r.id ≠ cid)
    (h4 : ∀ r ∈ store4, r.id = cid → r.userId ≠ uid) :
    getJobStatusHandler queue store1 uid jid =
      getJobStatusHandler queue store2 uid jid ∧
    getContentById store3 cid uid = .error ⟨"Content not found", 404⟩ ∧
    getContentById store4 cid uid = .error ⟨"Content not found", 404⟩ := by
  refine ⟨?_, ?_, ?_⟩
  · unfold getJobStatusHandler
    cases hq : getJobStatus queue jid with
    | none => rfl
    | some qs =>
      rw [h1]
      cases hr : getContentByJobId store2 jid with
      | none => rfl
      | some r =>
        have hne : r.userId ≠ uid := h2 r hr
        have : (r.userId == uid) = false := by
          simpa [beq_iff_eq] using hne
        simp [this]
  · unfold getContentById
    have : store3.find? (ownedMatches cid uid) = none := by
      rw [List.find?_eq_none]
      intro r hr
      simp [ownedMatches, beq_iff_eq]
      intro hid
      exact absurd hid (h3 r hr)
    rw [this]
  · unfold getContentById
    have : store4.find? (ownedMatches cid uid) = none := by
      rw [List.find?_eq_none]
      intro r hr
      simp [ownedMatches, beq_iff_eq]
      intro hid
      exact h4 r hr hid
    rw [this]

/-- C9 witness: empty stores versus a store owned by someone else, for a
concrete requester. -/
theorem notfound_hides_ownership_witness :
    getJobStatusHandler [("content-c2", ⟨"completed", 0, none, none⟩)] []
      "intruder" "content-c2" =
      getJobStatusHandler [("content-c2", ⟨"completed", 0, none, none⟩)]
        prunedJobStore "intruder" "content-c2" ∧
    getContentById [] "c2" "intruder" =
      .error ⟨"Content not found", 404⟩ ∧
    getContentById prunedJobStore "c2" "intruder" =
      .error ⟨"Content not found", 404⟩ :=
  notfound_hides_ownership [("content-c2", ⟨"completed", 0, none, none⟩)]
    [] prunedJobStore [] prunedJobStore "intruder" "content-c2" "c2"
    (by rfl)
    (by
      intro r hr
      have h := hr
      simp only [getContentByJobId, prunedJobStore, jobIdMatches,
        List.find?] at h
      obtain rfl : (⟨"c2", "u2", "t", .article, "p", some "AI", some "AI",
          some "content-c2", .completed⟩ : ContentRec) = r := by
        cases h' : (⟨"c2", "u2", "t", .article, "p", some "AI", some "AI",
            some "content-c2", .completed⟩ : ContentRec).jobId ==
            some "content-c2" <;> simp_all
      decide)
    (by intro r hr; exact absurd hr (List.not_mem_nil r))
    (by decide)

end AICG
